import Mathlib

/-!
Verification development for the DOCUPLOAD submission pipeline.

The Python sources (src/app.py, src/scanner.py, src/processor/processor.py)
are embedded shallowly: byte streams become lists of naturals, the external
SHA-256 digest is an abstract function parameter `H : Bytes → Bytes`, the
zip container is an injective length-prefixed encoding of its entry list,
and external I/O (blob tags, copy status, queue messages) is supplied as
explicit schedules.  Each claim about the spec is then settled as a theorem
about these definitions.
-/

/-- Byte streams are modelled as lists of naturals (one per byte). -/
abbrev Bytes := List Nat

/-- Bytes of a (ASCII) string, as written by `writestr` / compared by
signature checks. -/
def strBytes (s : String) : Bytes := s.toList.map Char.toNat

/-- Boolean prefix test on lists, modelling Python `bytes.startswith` /
`str.startswith`. -/
def listPre {α : Type} [DecidableEq α] : List α → List α → Bool
  | [], _ => true
  | _ :: _, [] => false
  | a :: as, b :: bs => a = b && listPre as bs

/-- Boolean contiguous-sublist test, modelling Python's `in` on strings. -/
def subList {α : Type} [DecidableEq α] : List α → List α → Bool
  | n, [] => n.isEmpty
  | n, c :: cs => listPre n (c :: cs) || subList n cs

/-- ASCII lower-casing of one character, modelling `str.lower` on the ASCII
tag values and filenames that occur in the pipeline. -/
def lowerChar (c : Char) : Char :=
  if 'A' ≤ c ∧ c ≤ 'Z' then Char.ofNat (c.toNat + 32) else c

/-- Lower-cased character list of a string (`str.lower`). -/
def lowerStr (s : String) : List Char := s.toList.map lowerChar

/-- Substring test after the hay has already been lower-cased
(`needle in hay.lower()`). -/
def containsSub (needle : String) (hay : List Char) : Bool :=
  subList needle.toList hay

/-- Suffix test, modelling `str.endswith`. -/
def strEnds (suffix hay : String) : Bool :=
  listPre suffix.toList.reverse hay.toList.reverse

/-- Extension part of `os.path.splitext(filename)[1]`, lower-cased as every
call site does (`.lower()`).  The extension is the suffix starting at the
last dot, provided some character before that dot is not itself a dot
(CPython's leading-dot rule); otherwise it is empty. -/
def extLower (filename : String) : List Char :=
  let rcs := (filename.toList.map lowerChar).reverse
  let ebody := rcs.takeWhile (fun c => c ≠ '.')
  match rcs.dropWhile (fun c => c ≠ '.') with
  | [] => []
  | _ :: before =>
    if before.any (fun c => c ≠ '.') then '.' :: ebody.reverse else []

/- ## Signature validators (src/app.py lines 101-209)

Each Python validator reads a bounded header from the stream (restoring the
cursor, which a pure model does not need to track) and tests magic bytes.
The two validators that open the stream as a zip archive consult the zip
member list; parsing by the external `zipfile` library is modelled by an
explicit oracle `zipNames : Bytes → Option (List String)` giving the
`namelist()` of the stream's bytes, `none` when `zipfile` would raise
`BadZipFile`/`KeyError`.  The oracle is a function of the bytes alone,
exactly as `zipfile.ZipFile` reads only the stream. -/

def pdfMagic : Bytes := strBytes "%PDF-"

def pkMagic : Bytes := strBytes "PK"

/-- Legacy compound-document magic (old XLS). -/
def xlsMagic : Bytes := [0xD0, 0xCF, 0x11, 0xE0, 0xA1, 0xB1, 0x1A, 0xE1]

def pngMagic : Bytes := [0x89, 0x50, 0x4E, 0x47, 0x0D, 0x0A, 0x1A, 0x0A]

def jpegMagic : Bytes := [0xFF, 0xD8, 0xFF]

/-- Check if stream starts with %PDF- (src/app.py:101). -/
def validate_pdf_signature (s : Bytes) : Bool := listPre pdfMagic s

/-- Check if stream starts with PK and its zip member list contains
word/document.xml (src/app.py:109). -/
def validate_docx_signature (zipNames : Bytes → Option (List String)) (s : Bytes) : Bool :=
  listPre pkMagic s &&
    match zipNames s with
    | some names => names.contains "word/document.xml"
    | none => false

/-- Check if stream is an Excel file: zip container (PK) or legacy
compound-document magic (src/app.py:136). -/
def validate_excel_signature (s : Bytes) : Bool :=
  listPre pkMagic s || listPre xlsMagic s

/-- Check if stream starts with PK and its zip member list has an entry
under ppt/ (src/app.py:153). -/
def validate_pptx_signature (zipNames : Bytes → Option (List String)) (s : Bytes) : Bool :=
  listPre pkMagic s &&
    match zipNames s with
    | some names => names.any (fun n => listPre "ppt/".toList n.toList)
    | none => false

/-- Validity of a UTF-8 byte sequence, modelling `bytes.decode('utf-8')`
succeeding (rejecting overlong forms, surrogates and values beyond
U+10FFFF, as CPython does). -/
def utf8Cont (b : Nat) : Bool := 0x80 ≤ b && b ≤ 0xBF

def utf8Valid : List Nat → Bool
  | [] => true
  | b :: bs =>
    if b ≤ 0x7F then utf8Valid bs
    else if 0xC2 ≤ b && b ≤ 0xDF then
      match bs with
      | b1 :: rest => utf8Cont b1 && utf8Valid rest
      | [] => false
    else if b == 0xE0 then
      match bs with
      | b1 :: b2 :: rest => (0xA0 ≤ b1 && b1 ≤ 0xBF) && utf8Cont b2 && utf8Valid rest
      | _ => false
    else if (0xE1 ≤ b && b ≤ 0xEC) || (0xEE ≤ b && b ≤ 0xEF) then
      match bs with
      | b1 :: b2 :: rest => utf8Cont b1 && utf8Cont b2 && utf8Valid rest
      | _ => false
    else if b == 0xED then
      match bs with
      | b1 :: b2 :: rest => (0x80 ≤ b1 && b1 ≤ 0x9F) && utf8Cont b2 && utf8Valid rest
      | _ => false
    else if b == 0xF0 then
      match bs with
      | b1 :: b2 :: b3 :: rest =>
        (0x90 ≤ b1 && b1 ≤ 0xBF) && utf8Cont b2 && utf8Cont b3 && utf8Valid rest
      | _ => false
    else if 0xF1 ≤ b && b ≤ 0xF3 then
      match bs with
      | b1 :: b2 :: b3 :: rest =>
        utf8Cont b1 && utf8Cont b2 && utf8Cont b3 && utf8Valid rest
      | _ => false
    else if b == 0xF4 then
      match bs with
      | b1 :: b2 :: b3 :: rest =>
        (0x80 ≤ b1 && b1 ≤ 0x8F) && utf8Cont b2 && utf8Cont b3 && utf8Valid rest
      | _ => false
    else false

/-- Check if the first 1KB of the stream decodes as UTF-8 (src/app.py:180). -/
def validate_text_signature (s : Bytes) : Bool := utf8Valid (s.take 1024)

/-- Check for PNG or JPEG signature (src/app.py:194). -/
def validate_image_signature (s : Bytes) : Bool :=
  listPre pngMagic s || listPre jpegMagic s

/-- The file kinds `detect_file_type` can name (first component of its
returned triple). -/
inductive FileKind where
  | pdf | docx | xls | xlsx | pptx | png | jpeg | csv | txt
  deriving DecidableEq, Repr

/-- Detect file type from content signature and return
(type, mime_type, extension); `none` models the `(None, None, None)`
"unrecognized" result (src/app.py:211-240). -/
def detect_file_type (zipNames : Bytes → Option (List String)) (s : Bytes)
    (filename : String) : Option (FileKind × String × String) :=
  if validate_pdf_signature s then
    some (FileKind.pdf, "application/pdf", ".pdf")
  else if validate_docx_signature zipNames s then
    some (FileKind.docx,
      "application/vnd.openxmlformats-officedocument.wordprocessingml.document", ".docx")
  else if validate_excel_signature s then
    if extLower filename = ".xls".toList then
      some (FileKind.xls, "application/vnd.ms-excel", ".xls")
    else
      some (FileKind.xlsx,
        "application/vnd.openxmlformats-officedocument.spreadsheetml.sheet", ".xlsx")
  else if validate_pptx_signature zipNames s then
    some (FileKind.pptx,
      "application/vnd.openxmlformats-officedocument.presentationml.presentation", ".pptx")
  else if validate_image_signature s then
    if extLower filename = ".png".toList then some (FileKind.png, "image/png", ".png")
    else some (FileKind.jpeg, "image/jpeg", ".jpg")
  else if validate_text_signature s then
    if extLower filename = ".csv".toList then some (FileKind.csv, "text/csv", ".csv")
    else some (FileKind.txt, "text/plain", ".txt")
  else none

/-- Structural families of the detector: the branch of the priority chain
that fired, before any extension-based disambiguation. -/
inductive FileFamily where
  | pdf | docx | spreadsheet | presentation | image | text | unrecognized
  deriving DecidableEq, Repr

/-- Family of a detection result. -/
def familyOf : Option (FileKind × String × String) → FileFamily
  | none => FileFamily.unrecognized
  | some (k, _, _) =>
    match k with
    | FileKind.pdf => FileFamily.pdf
    | FileKind.docx => FileFamily.docx
    | FileKind.xls => FileFamily.spreadsheet
    | FileKind.xlsx => FileFamily.spreadsheet
    | FileKind.pptx => FileFamily.presentation
    | FileKind.png => FileFamily.image
    | FileKind.jpeg => FileFamily.image
    | FileKind.csv => FileFamily.text
    | FileKind.txt => FileFamily.text

/- ## Tag validation and reserved-tag handling (src/app.py lines 95-99, 258-274) -/

/-- Characters admitted by the tag-key pattern `[a-z0-9-]`. -/
def tagKeyChar (c : Char) : Bool :=
  ('a' ≤ c && c ≤ 'z') || ('0' ≤ c && c ≤ '9') || c == '-'

/-- Characters admitted by the tag-value pattern `[A-Za-z0-9 _.-]`. -/
def tagValueChar (c : Char) : Bool :=
  ('A' ≤ c && c ≤ 'Z') || ('a' ≤ c && c ≤ 'z') || ('0' ≤ c && c ≤ '9') ||
    c == ' ' || c == '_' || c == '.' || c == '-'

/-- Tag key validation: full match of `^[a-z0-9-]{1,32}$` (src/app.py:95). -/
def validate_tag_key (k : String) : Bool :=
  decide (1 ≤ k.toList.length) && decide (k.toList.length ≤ 32) &&
    k.toList.all tagKeyChar

/-- Tag value validation: full match of `^[A-Za-z0-9 _.-]{1,64}$`
(src/app.py:98). -/
def validate_tag_value (v : String) : Bool :=
  decide (1 ≤ v.toList.length) && decide (v.toList.length ≤ 64) &&
    v.toList.all tagValueChar

/-- The reserved tag keys of `handle_reserved_tags` (src/app.py:260). -/
def reserved_keys : List String :=
  ["documentType", "sourceForm", "submittedAt", "submittedBy",
   "submissionId", "scanStatus", "scanProvider", "scanRequestedAt",
   "scanCompletedAt"]

/-- Handle reserved tag keys by namespacing them with the user. prefix on
collision (src/app.py:258-274).  User tag dicts are modelled as ordered
association lists. -/
def handle_reserved_tags (user_tags : List (String × String)) : List (String × String) :=
  user_tags.map (fun kv =>
    if reserved_keys.contains kv.1 then ("user." ++ kv.1, kv.2) else kv)

/-- One user-supplied tag pair passes both format checks. -/
def tagPairValid (kv : String × String) : Bool :=
  validate_tag_key kv.1 && validate_tag_value kv.2

/-- The tag stage of the intake endpoints (src/app.py:337-347 and 607-618):
every pair is format-checked, the first offending pair aborts the whole
request with a ValidationFailed error naming it, and only then are
reserved-key collisions resolved into the effective tag set. -/
def validateAndMergeTags (tags : List (String × String)) :
    Except (String × String) (List (String × String)) :=
  match tags.find? (fun kv => !(tagPairValid kv)) with
  | some kv => Except.error kv
  | none => Except.ok (handle_reserved_tags tags)

/- ## Scan result checking and polling (src/scanner.py lines 21-111)

The Azure blob is external; one poll of `get_blob_tags()` is modelled by a
`TagFetch` value: either the call raises (`exn`), or it returns tags in
which the Defender verdict tag "Malware Scanning scan result" is absent
(`tags none`) or has a string value (`tags (some v)`).  A whole scan is a
schedule `Nat → TagFetch` giving the n-th poll's outcome. -/

/-- Outcome of one `blob_client.get_blob_tags()` call. -/
inductive TagFetch where
  | exn (msg : String)
  | tags (verdict : Option String)
  deriving DecidableEq, Repr

/-- The `ScanResult` constants of src/scanner.py:21-27. -/
inductive ScanStatus where
  | clean | malicious | pending | error | noScan
  deriving DecidableEq, Repr

/-- Scan detail dictionaries returned along with a status: the tag-derived
details of `check_azure_defender_scan_result`, its error dictionary, or the
timeout dictionary of `wait_for_scan_result`. -/
inductive ScanDetails where
  | fromTags (raw : String)
  | errorDetail (msg : String)
  | timeoutDetail (attempts : Nat)
  deriving DecidableEq, Repr

/-- Check Azure Defender scan results from blob tags
(src/scanner.py:29-74): the verdict tag is lower-cased and matched by
substring against "malicious", "no threats found" and "no scan result";
unknown or empty values give no_scan_result; an exception is caught and
reported as the error status. -/
def check_azure_defender_scan_result (fetch : TagFetch) : ScanStatus × ScanDetails :=
  match fetch with
  | TagFetch.exn msg => (ScanStatus.error, ScanDetails.errorDetail msg)
  | TagFetch.tags v =>
    let raw := v.getD ""
    let d := lowerStr raw
    let details := ScanDetails.fromTags raw
    if containsSub "malicious" d then (ScanStatus.malicious, details)
    else if containsSub "no threats found" d then (ScanStatus.clean, details)
    else if containsSub "no scan result" d || d.isEmpty then (ScanStatus.noScan, details)
    else (ScanStatus.noScan, details)

/-- SCAN_POLL_INTERVAL (src/scanner.py:18, default 2 seconds). -/
def SCAN_POLL_INTERVAL : Nat := 2

/-- The polling loop of `wait_for_scan_result` (src/scanner.py:95-111).
`elapsed` models the wall clock consumed by the sleeps, `attempts` the
poll counter; one unit of fuel per loop iteration (the fuel supplied by
`wait_for_scan_result` exceeds the number of iterations the time budget
permits, so the fuel-exhaustion branch, which returns exactly what the
loop's fall-through return does, is never the reason for stopping).
The source compares `attempts >= timeout / SCAN_POLL_INTERVAL` with real
division; for positive interval this is exactly
`attempts * SCAN_POLL_INTERVAL ≥ timeout`. -/
def waitLoop (sched : Nat → TagFetch) (timeout : Nat) :
    Nat → Nat → Nat → ScanStatus × ScanDetails
  | _, attempts, 0 => (ScanStatus.pending, ScanDetails.timeoutDetail attempts)
  | elapsed, attempts, fuel + 1 =>
    if elapsed < timeout then
      let r := check_azure_defender_scan_result (sched attempts)
      if r.1 = ScanStatus.clean ∨ r.1 = ScanStatus.malicious then r
      else if timeout ≤ (attempts + 1) * SCAN_POLL_INTERVAL then
        (ScanStatus.pending, ScanDetails.timeoutDetail (attempts + 1))
      else waitLoop sched timeout (elapsed + SCAN_POLL_INTERVAL) (attempts + 1) fuel
    else (ScanStatus.pending, ScanDetails.timeoutDetail attempts)

/-- Wait for Azure Defender to complete scanning and return the result
(src/scanner.py:77-111): poll until a definitive clean/malicious verdict,
otherwise time out to the pending status with a timeout-flagged details
dictionary.  Errors and no_scan_result polls never abort the loop. -/
def wait_for_scan_result (sched : Nat → TagFetch) (timeout : Nat) :
    ScanStatus × ScanDetails :=
  waitLoop sched timeout 0 0 (timeout + 1)

/- ## Quarantine (src/scanner.py lines 114-196) -/

/-- Copy status reported by `get_blob_properties().copy.status` at one
poll of the quarantine copy loop. -/
inductive CopyStatus where
  | pending | success | failed | aborted
  deriving DecidableEq, Repr

/-- How the copy-wait loop of `quarantine_blob` ended. -/
inductive QuarantineWaitExit where
  | confirmed (attempt : Nat)
  | copyError
  | timedOut
  deriving DecidableEq, Repr

/-- The copy-wait loop of `quarantine_blob` (src/scanner.py:151-160):
`while elapsed < 30`, poll the copy status; break on success, raise on
failed/aborted, sleep one second otherwise.  If the 30-second budget runs
out with the copy still pending, the loop simply falls through. -/
def quarantineWait (sched : Nat → CopyStatus) : Nat → Nat → QuarantineWaitExit
  | _, 0 => QuarantineWaitExit.timedOut
  | elapsed, fuel + 1 =>
    if elapsed < 30 then
      match sched elapsed with
      | CopyStatus.success => QuarantineWaitExit.confirmed elapsed
      | CopyStatus.failed => QuarantineWaitExit.copyError
      | CopyStatus.aborted => QuarantineWaitExit.copyError
      | CopyStatus.pending => quarantineWait sched (elapsed + 1) fuel
    else QuarantineWaitExit.timedOut

/-- Observable outcome of `quarantine_blob`: the `quarantined` flag of the
returned dictionary, whether `delete_blob()` was reached on the original
blob, and whether the copy was ever confirmed successful before that. -/
structure QuarantineOutcome where
  quarantined : Bool
  deletedOriginal : Bool
  confirmedSuccess : Bool
  deriving DecidableEq, Repr

/-- Move a malicious blob to quarantine (src/scanner.py:114-196): start the
copy, run the copy-wait loop, then set quarantine metadata and tags and
delete the original blob; any raised exception is caught and reported as
`quarantined = False` without reaching the delete.  Note that both the
success break AND the timeout fall-through of the wait loop continue into
the delete. -/
def quarantine_blob (sched : Nat → CopyStatus) : QuarantineOutcome :=
  match quarantineWait sched 0 31 with
  | QuarantineWaitExit.copyError =>
    { quarantined := false, deletedOriginal := false, confirmedSuccess := false }
  | QuarantineWaitExit.confirmed _ =>
    { quarantined := true, deletedOriginal := true, confirmedSuccess := true }
  | QuarantineWaitExit.timedOut =>
    { quarantined := true, deletedOriginal := true, confirmedSuccess := false }

/- ## Manifest and two-pass archive building (src/app.py lines 382-456)

The JSON manifest dictionary is modelled as a structure holding the fields
the endpoints populate, with the optional `zip` block that only the Pass-2
manifest carries.  `json.dumps` and the zip container written by
`zipfile.writestr` are modelled by explicit length-prefixed byte encodings:
what matters for the claims is that distinct manifests serialize to
distinct bytes and that each archive is determined by (and grows with) its
entry list, which the encodings make provable.  SHA-256 itself is an
external primitive and enters as an abstract digest parameter
`H : Bytes → Bytes`. -/

/-- The `zip` block added to the manifest after Pass 1 (src/app.py:435-438). -/
structure ZipInfo where
  zipSha256 : Bytes
  zipSizeBytes : Nat
  deriving DecidableEq, Repr

/-- One entry of the manifest's `files` list (src/app.py:388-417). -/
structure FileMeta where
  fieldName : String
  originalFileName : String
  storedPathInZip : String
  sizeBytes : Nat
  sha256 : Bytes
  deriving DecidableEq, Repr

/-- The manifest dictionary (src/app.py:382-418): submission identity,
  timestamp, effective tags, scan block, file records, and the optional
  `zip` block that is absent when the manifest is first built. -/
structure Manifest where
  submissionId : String
  submittedAt : String
  tags : List (String × String)
  scanStatus : String
  files : List FileMeta
  zip : Option ZipInfo
  deriving DecidableEq, Repr

/-- Length-prefixed encoding of a byte list. -/
def encodedBytes (b : Bytes) : Bytes := b.length :: b

/-- Encoding of a string field. -/
def encStr (s : String) : Bytes := encodedBytes (strBytes s)

/-- Encoding of one tag pair. -/
def encTag (t : String × String) : Bytes := encStr t.1 ++ encStr t.2

/-- Encoding of one file record. -/
def encFileMeta (f : FileMeta) : Bytes :=
  encStr f.fieldName ++ encStr f.originalFileName ++ encStr f.storedPathInZip ++
    [f.sizeBytes] ++ encodedBytes f.sha256

/-- Length-prefixed encoding of a list of fields. -/
def encList {α : Type} (enc : α → Bytes) (l : List α) : Bytes :=
  l.length :: (l.map enc).flatten

/-- Encoding of the optional `zip` block; a leading presence flag models
the presence or absence of the `"zip"` key in the serialized JSON. -/
def encZipOpt : Option ZipInfo → Bytes
  | none => [0]
  | some z => 1 :: (encodedBytes z.zipSha256 ++ [z.zipSizeBytes])

/-- Serialization of every manifest field except the `zip` block. -/
def manifestCore (m : Manifest) : Bytes :=
  encStr m.submissionId ++ encStr m.submittedAt ++ encList encTag m.tags ++
    encStr m.scanStatus ++ encList encFileMeta m.files

/-- Serialization of the manifest (`json.dumps(manifest, indent=2)`). -/
def serializeManifest (m : Manifest) : Bytes :=
  manifestCore m ++ encZipOpt m.zip

/-- The zip container: each `writestr(name, content)` contributes its
length-prefixed name and content, in call order. -/
def mkZip : List (Bytes × Bytes) → Bytes
  | [] => []
  | e :: es => encodedBytes e.1 ++ encodedBytes e.2 ++ mkZip es

/-- The archive written by one pass of the bundler (src/app.py:420-426 and
441-445): the file payloads at their fixed paths followed by
manifest.json.  Both passes run exactly this, differing only in the
manifest. -/
def pass1Zip (payload : List (Bytes × Bytes)) (m : Manifest) : Bytes :=
  mkZip (payload ++ [(strBytes "manifest.json", serializeManifest m)])

/-- Result of the two-pass archive build: the delivered (Pass-2) archive
bytes, the manifest embedded in them, and the `zip_hash`/`zip_size`
variables the endpoint keeps for metadata and response. -/
structure ArchiveBuild where
  delivered : Bytes
  deliveredManifest : Manifest
  zipHash : Bytes
  zipSize : Nat
  deriving Repr

/-- The two-pass build of src/app.py:420-447: build the Pass-1 archive from
the payloads and the zip-less manifest, digest and measure it, attach that
digest/size as the manifest's `zip` block, and rebuild the archive with the
updated manifest.  The delivered archive's own digest is never computed;
`zip_hash`/`zip_size` keep the Pass-1 values. -/
def buildArchive (H : Bytes → Bytes) (payload : List (Bytes × Bytes))
    (m1 : Manifest) : ArchiveBuild :=
  { delivered := pass1Zip payload
      { m1 with zip := some ⟨H (pass1Zip payload m1), (pass1Zip payload m1).length⟩ }
    deliveredManifest :=
      { m1 with zip := some ⟨H (pass1Zip payload m1), (pass1Zip payload m1).length⟩ }
    zipHash := H (pass1Zip payload m1)
    zipSize := (pass1Zip payload m1).length }

/- ## The intake endpoint after validation (src/app.py lines 376-570)

After input validation, `upload_project_artifacts` (and, with the same
structure, `flexible_submit`, lines 702-896) builds the initial manifest
with a pending scan block and no `zip` key, runs the two-pass archive
build, uploads the delivered bytes with metadata whose `zipSha256` is
`zip_hash`, waits for the scan verdict with a 30 second budget, and
branches: malicious quarantines and answers 403 MalwareDetected; clean and
pending update the blob scan status and answer 201 with
`"status": "uploaded"` and `"zipSha256": zip_hash`. -/

/-- Side-effecting calls the endpoint makes after building the archive, in
order. -/
inductive EndpointAction where
  | uploadBlob
  | quarantineBlob
  | setScanStatus (s : String)
  deriving DecidableEq, Repr

/-- The JSON response of the endpoint, restricted to the fields the claims
mention. -/
structure Response where
  httpStatus : Nat
  errorField : Option String
  statusField : Option String
  respZipSha256 : Option Bytes
  respScanStatus : Option String
  deriving DecidableEq, Repr

/-- Everything observable about one request on the Azure success path. -/
structure UploadOutcome where
  build : ArchiveBuild
  persistedBytes : Bytes
  metadataZipSha256 : Bytes
  actions : List EndpointAction
  response : Response
  deriving Repr

/-- The manifest as first assembled (src/app.py:382-418): scan block
pending, no `zip` key. -/
def initialManifest (sid submittedAt : String) (etags : List (String × String))
    (fmetas : List FileMeta) : Manifest :=
  { submissionId := sid, submittedAt := submittedAt, tags := etags,
    scanStatus := "pending", files := fmetas, zip := none }

/-- The scan-verdict branch shared by the endpoints (src/app.py:518-570):
malicious → quarantine and 403 MalwareDetected; clean → mark clean and
201 uploaded; anything else → mark pending and 201 uploaded. -/
def uploadScanBranch (A : ArchiveBuild) (scanStatus : ScanStatus) : UploadOutcome :=
  match scanStatus with
  | ScanStatus.malicious =>
    { build := A, persistedBytes := A.delivered, metadataZipSha256 := A.zipHash,
      actions := [EndpointAction.uploadBlob, EndpointAction.quarantineBlob],
      response := { httpStatus := 403, errorField := some "MalwareDetected",
                    statusField := none, respZipSha256 := none,
                    respScanStatus := some "malicious" } }
  | ScanStatus.clean =>
    { build := A, persistedBytes := A.delivered, metadataZipSha256 := A.zipHash,
      actions := [EndpointAction.uploadBlob, EndpointAction.setScanStatus "clean"],
      response := { httpStatus := 201, errorField := none,
                    statusField := some "uploaded", respZipSha256 := some A.zipHash,
                    respScanStatus := some "clean" } }
  | _ =>
    { build := A, persistedBytes := A.delivered, metadataZipSha256 := A.zipHash,
      actions := [EndpointAction.uploadBlob, EndpointAction.setScanStatus "pending"],
      response := { httpStatus := 201, errorField := none,
                    statusField := some "uploaded", respZipSha256 := some A.zipHash,
                    respScanStatus := some "pending" } }

/-- The post-validation pipeline of an intake request on the Azure success
path (src/app.py:376-570; the same shape at src/app.py:702-896): initial
manifest, two-pass archive, upload with `zipSha256 := zip_hash` metadata,
30-second scan wait, verdict branch. -/
def processUpload (H : Bytes → Bytes) (sid submittedAt : String)
    (etags : List (String × String)) (fmetas : List FileMeta)
    (payload : List (Bytes × Bytes)) (sched : Nat → TagFetch) : UploadOutcome :=
  uploadScanBranch (buildArchive H payload (initialManifest sid submittedAt etags fmetas))
    (wait_for_scan_result sched 30).1

/- ## Reprocessor (src/processor/processor.py lines 291-419)

The queue message body is either invalid JSON or a parsed Event Grid
envelope with the fields `process_blob_event` reads.  The blob store and
the manifest JSON parser are external and enter as oracles: `fetch` maps
the event URL to the download/extract outcome (`err` for a download
failure, `badZip` for a `BadZipFile`, or the extracted name/content list),
and `parse` maps manifest bytes to `none` when `json.loads`/`decode`
fails, otherwise to the manifest's optional `submissionId` string. -/

/-- The event fields read by `process_blob_event` (data.url,
data.contentType). -/
structure QueueEvent where
  url : String
  contentType : String
  deriving DecidableEq, Repr

/-- A received queue message body: invalid JSON (`json.loads(str(message))`
raises) or a parsed event. -/
inductive MsgBody where
  | invalid
  | valid (e : QueueEvent)
  deriving Repr

/-- Download/extract outcome for the referenced blob. -/
inductive FetchResult where
  | err
  | badZip
  | files (fs : List (String × Bytes))
  deriving Repr

/-- Side effects of processing one event. -/
inductive ProcAction where
  | download
  | uploadProcessed (sid : String)
  | emitEvent (sid : String)
  deriving DecidableEq, Repr

/-- What the receiver loop does with the message. -/
inductive MsgOutcome where
  | completed
  | abandoned
  | deadLettered
  deriving DecidableEq, Repr

/-- Read and parse manifest.json from the extracted files
(src/processor/processor.py:133-156): first entry whose lower-cased name
ends with (or equals) manifest.json, parsed by the oracle; `none` when no
such entry exists or parsing fails. -/
def read_manifest (parse : Bytes → Option (Option String))
    (fs : List (String × Bytes)) : Option (Option String) :=
  match fs.find? (fun nc =>
      strEnds "manifest.json" (String.mk (lowerStr nc.1)) ||
        String.mk (lowerStr nc.1) == "manifest.json") with
  | none => none
  | some nc => parse nc.2

/-- Main processing logic for one blob upload event
(src/processor/processor.py:291-371), returning the success flag handed to
the receiver loop together with the side effects performed.  Non-zip
objects are skipped successfully with no side effects; download and
extraction failures, an empty archive, an unreadable manifest, and a
missing (or empty) submissionId all return failure. -/
def process_blob_event (fetch : String → FetchResult)
    (parse : Bytes → Option (Option String)) (e : QueueEvent) :
    Bool × List ProcAction :=
  if strEnds ".zip" e.url = false ∧ e.contentType ≠ "application/zip" then
    (true, [])
  else
    match fetch e.url with
    | FetchResult.err => (false, [ProcAction.download])
    | FetchResult.badZip => (false, [ProcAction.download])
    | FetchResult.files fs =>
      if fs.isEmpty then (false, [ProcAction.download])
      else
        match read_manifest parse fs with
        | none => (false, [ProcAction.download])
        | some msid =>
          match msid with
          | none => (false, [ProcAction.download])
          | some sid =>
            if sid = "" then (false, [ProcAction.download])
            else (true, [ProcAction.download, ProcAction.uploadProcessed sid,
                         ProcAction.emitEvent sid])

/-- One iteration of the receiver loop (src/processor/processor.py:382-419):
a body that fails JSON parsing is dead-lettered; otherwise the event is
processed, and the message is completed on success or abandoned for the
queue's retry policy on failure. -/
def startStep (fetch : String → FetchResult)
    (parse : Bytes → Option (Option String)) (body : MsgBody) :
    MsgOutcome × List ProcAction :=
  match body with
  | MsgBody.invalid => (MsgOutcome.deadLettered, [])
  | MsgBody.valid e =>
    let r := process_blob_event fetch parse e
    if r.1 then (MsgOutcome.completed, r.2) else (MsgOutcome.abandoned, r.2)

/- ## Helper lemmas -/

/-- The zip encoding distributes over entry-list concatenation. -/
lemma mkZip_append (a b : List (Bytes × Bytes)) :
    mkZip (a ++ b) = mkZip a ++ mkZip b := by
  induction a with
  | nil => rfl
  | cons e es ih => simp [mkZip, ih]

/-- Updating the `zip` block does not change the serialization of the other
manifest fields. -/
lemma manifestCore_setZip (m : Manifest) (x : Option ZipInfo) :
    manifestCore { m with zip := x } = manifestCore m := rfl

/-- Attaching a `zip` block strictly lengthens the serialized manifest. -/
lemma serialize_length_lt (m : Manifest) (hz : m.zip = none) (z : ZipInfo) :
    (serializeManifest m).length < (serializeManifest { m with zip := some z }).length := by
  simp [serializeManifest, hz, encZipOpt, manifestCore_setZip, encodedBytes]

/-- Length of one bundler pass in terms of its parts. -/
lemma pass1Zip_length (payload : List (Bytes × Bytes)) (m : Manifest) :
    (pass1Zip payload m).length =
      (mkZip payload).length + (strBytes "manifest.json").length +
        (serializeManifest m).length + 2 := by
  simp [pass1Zip, mkZip_append, mkZip, encodedBytes]
  omega

/-- A pass over a manifest that has gained a `zip` block is strictly longer
than the pass over the same manifest without one. -/
lemma pass1Zip_length_lt (payload : List (Bytes × Bytes)) (m1 : Manifest)
    (hz : m1.zip = none) (z : ZipInfo) :
    (pass1Zip payload m1).length < (pass1Zip payload { m1 with zip := some z }).length := by
  have hs := serialize_length_lt m1 hz z
  rw [pass1Zip_length, pass1Zip_length]
  omega

/-- The Pass-1 archive is strictly shorter than the delivered Pass-2
archive. -/
lemma pass1_length_lt_delivered (H : Bytes → Bytes) (payload : List (Bytes × Bytes))
    (m1 : Manifest) (hz : m1.zip = none) :
    (pass1Zip payload m1).length < (buildArchive H payload m1).delivered.length :=
  pass1Zip_length_lt payload m1 hz
    ⟨H (pass1Zip payload m1), (pass1Zip payload m1).length⟩

/-- The Pass-1 archive bytes differ from the delivered Pass-2 archive
bytes. -/
lemma pass1_ne_delivered (H : Bytes → Bytes) (payload : List (Bytes × Bytes))
    (m1 : Manifest) (hz : m1.zip = none) :
    pass1Zip payload m1 ≠ (buildArchive H payload m1).delivered := by
  intro h
  have := pass1_length_lt_delivered H payload m1 hz
  rw [h] at this
  exact lt_irrefl _ this

/-- If no poll of the schedule maps to a terminal verdict, the scan wait
loop ends in the pending status with a timeout-flagged details dictionary,
from any starting clock and attempt count and with any fuel. -/
lemma waitLoop_no_terminal (sched : Nat → TagFetch) (timeout : Nat)
    (h : ∀ n, (check_azure_defender_scan_result (sched n)).1 ≠ ScanStatus.clean ∧
      (check_azure_defender_scan_result (sched n)).1 ≠ ScanStatus.malicious) :
    ∀ fuel elapsed attempts, ∃ a,
      waitLoop sched timeout elapsed attempts fuel =
        (ScanStatus.pending, ScanDetails.timeoutDetail a) := by
  intro fuel
  induction fuel with
  | zero => intro elapsed attempts; exact ⟨attempts, rfl⟩
  | succ n ih =>
    intro elapsed attempts
    unfold waitLoop
    by_cases he : elapsed < timeout
    · rw [if_pos he]
      have hn : ¬((check_azure_defender_scan_result (sched attempts)).1 = ScanStatus.clean ∨
          (check_azure_defender_scan_result (sched attempts)).1 = ScanStatus.malicious) := by
        rintro (hc | hc)
        · exact (h attempts).1 hc
        · exact (h attempts).2 hc
      rw [if_neg hn]
      by_cases ht : timeout ≤ (attempts + 1) * SCAN_POLL_INTERVAL
      · rw [if_pos ht]; exact ⟨attempts + 1, rfl⟩
      · rw [if_neg ht]; exact ih _ _
    · rw [if_neg he]; exact ⟨attempts, rfl⟩

/-- Kind component of a detection result. -/
def kindOf : Option (FileKind × String × String) → Option FileKind
  | none => none
  | some (k, _, _) => some k

/-- The structural branch of the detector's priority chain, computed from
the stream content alone. -/
def detectFamily (zipNames : Bytes → Option (List String)) (s : Bytes) : FileFamily :=
  if validate_pdf_signature s then FileFamily.pdf
  else if validate_docx_signature zipNames s then FileFamily.docx
  else if validate_excel_signature s then FileFamily.spreadsheet
  else if validate_pptx_signature zipNames s then FileFamily.presentation
  else if validate_image_signature s then FileFamily.image
  else if validate_text_signature s then FileFamily.text
  else FileFamily.unrecognized

/-- The family of a detection is exactly the content-only branch choice:
the filename enters only inside an already-chosen branch. -/
lemma familyOf_detect (zipNames : Bytes → Option (List String)) (s : Bytes)
    (filename : String) :
    familyOf (detect_file_type zipNames s filename) = detectFamily zipNames s := by
  unfold detect_file_type detectFamily
  split_ifs <;> rfl

/-- A stream failing the spreadsheet check cannot pass the presentation
check, because both demand the PK zip header. -/
lemma excel_false_pptx_false (zipNames : Bytes → Option (List String)) (s : Bytes)
    (h : validate_excel_signature s = false) :
    validate_pptx_signature zipNames s = false := by
  unfold validate_excel_signature at h
  have h1 : listPre pkMagic s = false := by
    revert h; cases listPre pkMagic s <;> simp
  unfold validate_pptx_signature
  rw [h1]
  rfl

/-- No stream reaches the presentation branch of the priority chain. -/
lemma detectFamily_ne_presentation (zipNames : Bytes → Option (List String)) (s : Bytes) :
    detectFamily zipNames s ≠ FileFamily.presentation := by
  unfold detectFamily
  by_cases h1 : validate_pdf_signature s
  · simp [h1]
  by_cases h2 : validate_docx_signature zipNames s
  · simp [h1, h2]
  by_cases h3 : validate_excel_signature s
  · simp [h1, h2, h3]
  have hex : validate_excel_signature s = false := by
    revert h3; cases validate_excel_signature s <;> simp
  have h4 : validate_pptx_signature zipNames s = false :=
    excel_false_pptx_false zipNames s hex
  by_cases h5 : validate_image_signature s
  · simp [h1, h2, h3, h4, h5]
  by_cases h6 : validate_text_signature s <;> simp [h1, h2, h3, h4, h5, h6]

/- ## Claim theorems -/

/-- C1: for every intake request that builds an archive (any digest
function, file payloads, and initial manifest without a `zip` block, as all
three endpoints construct it), the zip.zipSha256 and zip.zipSizeBytes
fields of the manifest embedded in the delivered Pass-2 archive equal the
digest and byte size of the Pass-1 archive — the archive built from the
same payloads and the manifest without the zip block — and, for an
injective digest, do NOT equal the digest and size of the Pass-2 archive
itself. -/
theorem c1_embedded_zip_block_is_pass1_digest (H : Bytes → Bytes)
    (hinj : Function.Injective H) (payload : List (Bytes × Bytes)) (m1 : Manifest)
    (hz : m1.zip = none) :
    (buildArchive H payload m1).delivered =
      pass1Zip payload (buildArchive H payload m1).deliveredManifest ∧
    (buildArchive H payload m1).deliveredManifest.zip =
      some ⟨H (pass1Zip payload m1), (pass1Zip payload m1).length⟩ ∧
    H (pass1Zip payload m1) ≠ H ((buildArchive H payload m1).delivered) ∧
    (pass1Zip payload m1).length ≠ ((buildArchive H payload m1).delivered).length := by
  refine ⟨rfl, rfl, ?_, ?_⟩
  · intro h
    exact pass1_ne_delivered H payload m1 hz (hinj h)
  · exact Nat.ne_of_lt (pass1_length_lt_delivered H payload m1 hz)

/-- Witness for C1 at the identity digest and an empty payload. -/
theorem c1_embedded_zip_block_is_pass1_digest_witness :
    (buildArchive id [] (initialManifest "" "" [] [])).delivered =
      pass1Zip [] (buildArchive id [] (initialManifest "" "" [] [])).deliveredManifest ∧
    (buildArchive id [] (initialManifest "" "" [] [])).deliveredManifest.zip =
      some ⟨id (pass1Zip [] (initialManifest "" "" [] [])),
            (pass1Zip [] (initialManifest "" "" [] [])).length⟩ ∧
    id (pass1Zip [] (initialManifest "" "" [] [])) ≠
      id ((buildArchive id [] (initialManifest "" "" [] [])).delivered) ∧
    (pass1Zip [] (initialManifest "" "" [] [])).length ≠
      ((buildArchive id [] (initialManifest "" "" [] [])).delivered).length :=
  c1_embedded_zip_block_is_pass1_digest id (fun _ _ h => h) []
    (initialManifest "" "" [] []) rfl

/-- C2 counterexample: at a concrete request (identity digest, empty
payload, a first poll answering "No threats found"), the zipSha256 the
endpoint reports in the response and in the blob metadata is NOT the
digest of the persisted Pass-2 bytes, contradicting the claim. -/
theorem c2_reported_digest_counterexample :
    (processUpload id "" "" [] [] []
        (fun _ => TagFetch.tags (some "No threats found"))).response.respZipSha256 ≠
      some ((processUpload id "" "" [] [] []
        (fun _ => TagFetch.tags (some "No threats found"))).persistedBytes) ∧
    (processUpload id "" "" [] [] []
        (fun _ => TagFetch.tags (some "No threats found"))).metadataZipSha256 ≠
      (processUpload id "" "" [] [] []
        (fun _ => TagFetch.tags (some "No threats found"))).persistedBytes := by
  decide

/-- C2 as amended: the archive digest reported externally — the response
zipSha256 and the blob metadata zipSha256 — is the digest of the PASS-1
archive (the very value embedded in the delivered manifest's zip block);
the persisted bytes are the Pass-2 archive, whose digest (for an injective
digest function) differs from the reported one. -/
theorem c2_reported_digest_is_pass1 (H : Bytes → Bytes)
    (hinj : Function.Injective H) (sid submittedAt : String)
    (etags : List (String × String)) (fmetas : List FileMeta)
    (payload : List (Bytes × Bytes)) (sched : Nat → TagFetch) :
    (processUpload H sid submittedAt etags fmetas payload sched).metadataZipSha256 =
      H (pass1Zip payload (initialManifest sid submittedAt etags fmetas)) ∧
    ((processUpload H sid submittedAt etags fmetas payload sched).response.statusField =
        some "uploaded" →
      (processUpload H sid submittedAt etags fmetas payload sched).response.respZipSha256 =
        some (H (pass1Zip payload (initialManifest sid submittedAt etags fmetas)))) ∧
    (processUpload H sid submittedAt etags fmetas payload sched).persistedBytes =
      (buildArchive H payload (initialManifest sid submittedAt etags fmetas)).delivered ∧
    H (pass1Zip payload (initialManifest sid submittedAt etags fmetas)) ≠
      H ((processUpload H sid submittedAt etags fmetas payload sched).persistedBytes) := by
  unfold processUpload uploadScanBranch
  cases (wait_for_scan_result sched 30).1 with
  | clean =>
    exact ⟨rfl, fun _ => rfl, rfl,
      fun h => pass1_ne_delivered H payload _ rfl (hinj h)⟩
  | malicious =>
    exact ⟨rfl, fun h => Option.noConfusion h, rfl,
      fun h => pass1_ne_delivered H payload _ rfl (hinj h)⟩
  | pending =>
    exact ⟨rfl, fun _ => rfl, rfl,
      fun h => pass1_ne_delivered H payload _ rfl (hinj h)⟩
  | error =>
    exact ⟨rfl, fun _ => rfl, rfl,
      fun h => pass1_ne_delivered H payload _ rfl (hinj h)⟩
  | noScan =>
    exact ⟨rfl, fun _ => rfl, rfl,
      fun h => pass1_ne_delivered H payload _ rfl (hinj h)⟩

/-- Witness for the amended C2 at the identity digest. -/
theorem c2_reported_digest_is_pass1_witness :
    (processUpload id "" "" [] [] [] (fun _ => TagFetch.tags none)).metadataZipSha256 =
      id (pass1Zip [] (initialManifest "" "" [] [])) ∧
    ((processUpload id "" "" [] [] [] (fun _ => TagFetch.tags none)).response.statusField =
        some "uploaded" →
      (processUpload id "" "" [] [] [] (fun _ => TagFetch.tags none)).response.respZipSha256 =
        some (id (pass1Zip [] (initialManifest "" "" [] [])))) ∧
    (processUpload id "" "" [] [] [] (fun _ => TagFetch.tags none)).persistedBytes =
      (buildArchive id [] (initialManifest "" "" [] [])).delivered ∧
    id (pass1Zip [] (initialManifest "" "" [] [])) ≠
      id ((processUpload id "" "" [] [] [] (fun _ => TagFetch.tags none)).persistedBytes) :=
  c2_reported_digest_is_pass1 id (fun _ _ h => h) "" "" [] [] []
    (fun _ => TagFetch.tags none)

/-- C3: on every upload whose scan verdict is malicious, the endpoint's
action sequence is the blob upload followed by the quarantine call — the
quarantine is invoked before the response is produced — and the response
is the MalwareDetected rejection with the 4xx policy-denial status 403,
never the "uploaded" success response. -/
theorem c3_malicious_quarantined_and_rejected (H : Bytes → Bytes)
    (sid submittedAt : String) (etags : List (String × String)) (fmetas : List FileMeta)
    (payload : List (Bytes × Bytes)) (sched : Nat → TagFetch)
    (h : (wait_for_scan_result sched 30).1 = ScanStatus.malicious) :
    (processUpload H sid submittedAt etags fmetas payload sched).actions =
      [EndpointAction.uploadBlob, EndpointAction.quarantineBlob] ∧
    (processUpload H sid submittedAt etags fmetas payload sched).response.errorField =
      some "MalwareDetected" ∧
    (processUpload H sid submittedAt etags fmetas payload sched).response.httpStatus = 403 ∧
    400 ≤ (processUpload H sid submittedAt etags fmetas payload sched).response.httpStatus ∧
    (processUpload H sid submittedAt etags fmetas payload sched).response.httpStatus < 500 ∧
    (processUpload H sid submittedAt etags fmetas payload sched).response.statusField ≠
      some "uploaded" := by
  unfold processUpload uploadScanBranch
  rw [h]
  exact ⟨rfl, rfl, rfl, show (400:Nat) ≤ 403 by decide, show (403:Nat) < 500 by decide,
    fun hc => Option.noConfusion hc⟩

/-- Witness for C3 at a schedule whose first poll reports Malicious. -/
theorem c3_malicious_quarantined_and_rejected_witness :
    (processUpload id "" "" [] [] []
        (fun _ => TagFetch.tags (some "Malicious"))).actions =
      [EndpointAction.uploadBlob, EndpointAction.quarantineBlob] ∧
    (processUpload id "" "" [] [] []
        (fun _ => TagFetch.tags (some "Malicious"))).response.errorField =
      some "MalwareDetected" ∧
    (processUpload id "" "" [] [] []
        (fun _ => TagFetch.tags (some "Malicious"))).response.httpStatus = 403 ∧
    400 ≤ (processUpload id "" "" [] [] []
        (fun _ => TagFetch.tags (some "Malicious"))).response.httpStatus ∧
    (processUpload id "" "" [] [] []
        (fun _ => TagFetch.tags (some "Malicious"))).response.httpStatus < 500 ∧
    (processUpload id "" "" [] [] []
        (fun _ => TagFetch.tags (some "Malicious"))).response.statusField ≠
      some "uploaded" :=
  c3_malicious_quarantined_and_rejected id "" "" [] [] []
    (fun _ => TagFetch.tags (some "Malicious")) (by decide)

/-- C4: evaluation of `quarantine_blob` at the failing input — a copy whose
polled status stays "pending" at every poll of the 30-second wait — shows
the code deletes the original blob (and even reports quarantined = True)
although copy success was never confirmed, contradicting the
delete-only-after-confirmed-success claim that the wait loop's
break-on-success / raise-on-failure structure clearly intends. -/
theorem c4_timeout_deletes_without_confirmation :
    (quarantine_blob (fun _ => CopyStatus.pending)).deletedOriginal = true ∧
    (quarantine_blob (fun _ => CopyStatus.pending)).confirmedSuccess = false ∧
    (quarantine_blob (fun _ => CopyStatus.pending)).quarantined = true := by
  decide

/-- C5: for every schedule of polled scan tags that never yields a terminal
clean/malicious verdict — error polls and no-scan-result polls included —
and every time budget, `wait_for_scan_result` returns (without raising and
without aborting the loop early) the pending status together with a
timeout-flagged details dictionary. -/
theorem c5_nonterminal_polls_time_out_to_pending (sched : Nat → TagFetch)
    (timeout : Nat)
    (h : ∀ n, (check_azure_defender_scan_result (sched n)).1 ≠ ScanStatus.clean ∧
      (check_azure_defender_scan_result (sched n)).1 ≠ ScanStatus.malicious) :
    ∃ a, wait_for_scan_result sched timeout =
      (ScanStatus.pending, ScanDetails.timeoutDetail a) :=
  waitLoop_no_terminal sched timeout h (timeout + 1) 0 0

/-- Witness for C5 at a schedule on which the verdict tag is always
absent. -/
theorem c5_nonterminal_polls_time_out_to_pending_witness :
    ∃ a, wait_for_scan_result (fun _ => TagFetch.tags none) 30 =
      (ScanStatus.pending, ScanDetails.timeoutDetail a) :=
  c5_nonterminal_polls_time_out_to_pending (fun _ => TagFetch.tags none) 30
    (fun _ =>
      ⟨show (check_azure_defender_scan_result (TagFetch.tags none)).1 ≠ ScanStatus.clean by
          decide,
        show (check_azure_defender_scan_result (TagFetch.tags none)).1 ≠
            ScanStatus.malicious by
          decide⟩)

/-- C6 counterexample: the same byte stream (the legacy compound-document
magic) under two filenames yields two different file kinds — xls for
"a.xls" and xlsx for "b.bin" — so the detected kind does depend on the
filename, contradicting the claim. -/
theorem c6_extension_changes_kind_counterexample :
    kindOf (detect_file_type (fun _ => none) xlsMagic "a.xls") = some FileKind.xls ∧
    kindOf (detect_file_type (fun _ => none) xlsMagic "b.bin") = some FileKind.xlsx := by
  decide

/-- C6 as amended: the structural family the detector assigns (pdf, docx,
spreadsheet, presentation, image, text, or unrecognized) depends only on
the stream content, never on the filename; the filename extension can only
select the label inside an already-chosen family (xls/xlsx, png/jpeg,
csv/txt), so the exact kind is not filename-independent. -/
theorem c6_family_depends_only_on_content (zipNames : Bytes → Option (List String))
    (s : Bytes) (f1 f2 : String) :
    familyOf (detect_file_type zipNames s f1) = familyOf (detect_file_type zipNames s f2) :=
  (familyOf_detect zipNames s f1).trans (familyOf_detect zipNames s f2).symm

/-- C7 counterexample: the value "Battery Pack #7" is rejected by
`validate_tag_value` — the character '#' is outside the value pattern
`[A-Za-z0-9 _.-]` — contradicting the claim that this pair is accepted. -/
theorem c7_value_counterexample : validate_tag_value "Battery Pack #7" = false := by
  decide

/-- C7 as amended: tag validation rejects the key "Proj_1" (uppercase and
underscore violate the key pattern), accepts the key "proj-1", and rejects
the value "Battery Pack #7" (the '#' is outside the value alphabet; the
same value without '#' is accepted). -/
theorem c7_tag_validation_amended :
    validate_tag_key "Proj_1" = false ∧
    validate_tag_key "proj-1" = true ∧
    validate_tag_value "Battery Pack #7" = false ∧
    validate_tag_value "Battery Pack 7" = true := by
  decide

/-- C8 counterexample: a submission whose user tags include the key
scanStatus never produces an effective tag set — the endpoint's tag stage
rejects the whole request at format validation (the uppercase 'S' violates
the key pattern) before `handle_reserved_tags` can namespace anything,
contradicting the claim. -/
theorem c8_scanstatus_tag_rejected_counterexample :
    validateAndMergeTags [("project", "alpha"), ("scanStatus", "done")] =
      Except.error ("scanStatus", "done") := by
  rfl

/-- C8 as amended: every submission whose user tags include the key
scanStatus is rejected with a ValidationFailed error naming some offending
pair, so the endpoint produces no effective tag set for it and the system
scanStatus tag is trivially never shadowed; the reserved-key renaming of
`handle_reserved_tags` — which, applied directly, does store the value
under user.scanStatus — is unreachable from the endpoint for this key. -/
theorem c8_scanstatus_tag_rejected (tags : List (String × String)) (v : String)
    (h : ("scanStatus", v) ∈ tags) :
    (∃ kv, validateAndMergeTags tags = Except.error kv) ∧
    ("user.scanStatus", v) ∈ handle_reserved_tags tags := by
  constructor
  · cases hf : tags.find? (fun kv => !(tagPairValid kv)) with
    | none =>
      exfalso
      have hall := List.find?_eq_none.mp hf _ h
      have hkey : validate_tag_key "scanStatus" = false := by decide
      simp [tagPairValid, hkey] at hall
    | some kv =>
      refine ⟨kv, ?_⟩
      unfold validateAndMergeTags
      rw [hf]
  · refine List.mem_map.mpr ⟨("scanStatus", v), h, ?_⟩
    show (if reserved_keys.contains "scanStatus" = true
        then ("user." ++ "scanStatus", v) else ("scanStatus", v)) = ("user.scanStatus", v)
    rw [if_pos (show reserved_keys.contains "scanStatus" = true by decide),
      show ("user." ++ "scanStatus" : String) = "user.scanStatus" from by decide]

/-- Witness for the amended C8 at a concrete tag set. -/
theorem c8_scanstatus_tag_rejected_witness :
    (∃ kv, validateAndMergeTags [("scanStatus", "done")] = Except.error kv) ∧
    ("user.scanStatus", "done") ∈ handle_reserved_tags [("scanStatus", "done")] :=
  c8_scanstatus_tag_rejected [("scanStatus", "done")] "done"
    (List.mem_singleton.mpr rfl)

/-- C9: for every queue message received by the Reprocessor, a body that is
not valid JSON is dead-lettered immediately with no processing; a message
referencing a non-zip object (URL without the .zip suffix and content type
other than application/zip) is completed as a no-op with no side effects;
and a well-formed zip message whose downloaded archive lacks a readable
manifest or whose manifest lacks a submissionId is abandoned back to the
queue, neither completed nor dead-lettered. -/
theorem c9_reprocessor_message_outcomes (fetch : String → FetchResult)
    (parse : Bytes → Option (Option String))
    (e1 : QueueEvent) (h1 : strEnds ".zip" e1.url = false)
    (h1b : e1.contentType ≠ "application/zip")
    (e2 : QueueEvent) (h2 : strEnds ".zip" e2.url = true ∨ e2.contentType = "application/zip")
    (fs : List (String × Bytes)) (h3 : fetch e2.url = FetchResult.files fs)
    (h4 : read_manifest parse fs = none ∨ read_manifest parse fs = some none) :
    startStep fetch parse MsgBody.invalid = (MsgOutcome.deadLettered, []) ∧
    startStep fetch parse (MsgBody.valid e1) = (MsgOutcome.completed, []) ∧
    (startStep fetch parse (MsgBody.valid e2)).1 = MsgOutcome.abandoned := by
  have hskip : process_blob_event fetch parse e1 = (true, []) := by
    unfold process_blob_event
    rw [if_pos ⟨h1, h1b⟩]
  have hcond : ¬(strEnds ".zip" e2.url = false ∧ e2.contentType ≠ "application/zip") := by
    rcases h2 with h | h
    · rintro ⟨ha, _⟩; rw [h] at ha; exact Bool.noConfusion ha
    · rintro ⟨_, hb⟩; exact hb h
  have hfail : process_blob_event fetch parse e2 = (false, [ProcAction.download]) := by
    unfold process_blob_event
    rw [if_neg hcond, h3]
    cases fs with
    | nil => rfl
    | cons a as => rcases h4 with h4 | h4 <;> simp [h4]
  refine ⟨rfl, ?_, ?_⟩
  · show (if (process_blob_event fetch parse e1).1 = true
        then (MsgOutcome.completed, (process_blob_event fetch parse e1).2)
        else (MsgOutcome.abandoned, (process_blob_event fetch parse e1).2)) =
      (MsgOutcome.completed, [])
    rw [hskip]
    rfl
  · show (if (process_blob_event fetch parse e2).1 = true
        then (MsgOutcome.completed, (process_blob_event fetch parse e2).2)
        else (MsgOutcome.abandoned, (process_blob_event fetch parse e2).2)).1 =
      MsgOutcome.abandoned
    rw [hfail]
    rfl

/-- Witness for C9 at concrete messages: an invalid body, a text file
event, and a zip event whose archive extracts to no files (hence no
manifest). -/
theorem c9_reprocessor_message_outcomes_witness :
    startStep (fun _ => FetchResult.files []) (fun _ => none) MsgBody.invalid =
      (MsgOutcome.deadLettered, []) ∧
    startStep (fun _ => FetchResult.files []) (fun _ => none)
        (MsgBody.valid (QueueEvent.mk "a.txt" "text/plain")) =
      (MsgOutcome.completed, []) ∧
    (startStep (fun _ => FetchResult.files []) (fun _ => none)
        (MsgBody.valid (QueueEvent.mk "a.zip" "application/zip"))).1 =
      MsgOutcome.abandoned :=
  c9_reprocessor_message_outcomes (fun _ => FetchResult.files []) (fun _ => none)
    (QueueEvent.mk "a.txt" "text/plain") (by decide) (by decide)
    (QueueEvent.mk "a.zip" "application/zip") (Or.inr rfl) [] rfl (Or.inl rfl)

/-- C10: for every zip-member oracle, byte stream and filename,
`detect_file_type` never returns the pptx kind: a stream passing the
presentation check starts with PK and hence already passes the spreadsheet
check, which sits earlier in the priority chain, so the presentation
branch is unreachable at the public interface. -/
theorem c10_pptx_branch_unreachable (zipNames : Bytes → Option (List String))
    (s : Bytes) (f : String) :
    kindOf (detect_file_type zipNames s f) ≠ some FileKind.pptx := by
  intro hEq
  cases hd : detect_file_type zipNames s f with
  | none => rw [hd] at hEq; exact Option.noConfusion hEq
  | some t =>
    obtain ⟨k, mi, ex⟩ := t
    rw [hd] at hEq
    have hk : k = FileKind.pptx := Option.some.inj hEq
    subst hk
    have hf : FileFamily.presentation = detectFamily zipNames s := by
      have hfd := familyOf_detect zipNames s f
      rw [hd] at hfd
      exact hfd
    exact detectFamily_ne_presentation zipNames s hf.symm
